import Mathlib

/-!
Shallow embedding of the prescription service (src/app.py, src/models.py).

The service keeps prescription rows in a relational table, validates every
creation request against an external appointment service, and exposes read
endpoints with filtering and pagination.  External effects are made explicit:
the appointment service is a function from appointment id to the observed HTTP
response, the store is a value threaded through the handlers, the server clock
is a parameter, and the notification outcome is an input.
-/

namespace PrescriptionService

/-- The JSON object returned by `GET /v1/appointments/{id}` as the code reads
it: `appointment.get("status")`, `appointment.get("patient_id")`,
`appointment.get("doctor_id")` each yield `None` when the key is absent, hence
`Option` fields. -/
structure AppointmentJson where
  status : Option String
  patient_id : Option Int
  doctor_id : Option Int
deriving Repr, DecidableEq

/-- What `client.get(...)` in `verify_appointment` can observe: a response
with a status code and a body that either parses as JSON (`some a`) or makes
`response.json()` raise (`none`); or an exception from the request itself
(connection error / timeout), modelled as `unreachable`. -/
inductive UpstreamResponse where
  | response (status_code : Nat) (body : Option AppointmentJson)
  | unreachable
deriving Repr, DecidableEq

/-- `fastapi.HTTPException(status_code, detail)`. -/
structure HTTPError where
  status_code : Nat
  detail : String
deriving Repr, DecidableEq

/-- Python str() of an `Optional[str]` as an f-string renders it:
`None` prints as "None". -/
def pyStrOfOptStr : Option String → String
  | none => "None"
  | some s => s

/-- The detail string built at src/app.py line 57. -/
def notCompletedDetail (st : Option String) : String :=
  "Appointment must be COMPLETED to create prescription. Current status: " ++ pyStrOfOptStr st

/-- `verify_appointment` (src/app.py lines 43-75).  `svc` is the external
appointment service: the response observed for a given appointment id.

Note: the code never calls `response.raise_for_status()`, so
`httpx.HTTPStatusError` is never raised and the `except httpx.HTTPStatusError`
branch (lines 68-71) is dead; a non-404 error status whose body parses as JSON
falls through to the business-rule checks.  An unparseable body makes
`response.json()` raise, which the generic `except Exception` maps to
503 "Failed to verify appointment", the same as a connection error/timeout. -/
def verify_appointment (svc : Int → UpstreamResponse)
    (appointment_id patient_id doctor_id : Int) :
    Except HTTPError AppointmentJson :=
  match svc appointment_id with
  | .unreachable => .error ⟨503, "Failed to verify appointment"⟩
  | .response code body =>
    if code = 404 then .error ⟨404, "Appointment not found"⟩
    else
      match body with
      | none => .error ⟨503, "Failed to verify appointment"⟩
      | some a =>
        if a.status ≠ some "COMPLETED" then
          .error ⟨400, notCompletedDetail a.status⟩
        else if a.patient_id ≠ some patient_id then
          .error ⟨400, "Patient ID does not match appointment"⟩
        else if a.doctor_id ≠ some doctor_id then
          .error ⟨400, "Doctor ID does not match appointment"⟩
        else .ok a

/-- `PrescriptionCreate` (src/models.py lines 22-28): the request body.
All six fields are required; `medication` and `dosage` are plain `str` with
no further constraint. -/
structure PrescriptionCreate where
  appointment_id : Int
  patient_id : Int
  doctor_id : Int
  medication : String
  dosage : String
  days : Int
deriving Repr, DecidableEq

/-- A row of the `prescriptions` table (src/models.py lines 10-20):
autoincrement primary key `prescription_id` and server-defaulted
`issued_at` on top of the submitted fields. -/
structure PrescriptionRow where
  prescription_id : Nat
  appointment_id : Int
  patient_id : Int
  doctor_id : Int
  medication : String
  dosage : String
  days : Int
  issued_at : Nat
deriving Repr, DecidableEq

/-- The database: the `prescriptions` table plus the autoincrement counter. -/
structure Store where
  next_id : Nat
  rows : List PrescriptionRow
deriving Repr, DecidableEq

/-- `db.add(...); db.commit(); db.refresh(...)` for a `Prescription` built from
a `PrescriptionCreate` (src/app.py lines 107-110): the database assigns the
next primary key and sets `issued_at` to the current server time `now`
(column default `func.now()`), and returns the stored row. -/
def Store.insert (s : Store) (p : PrescriptionCreate) (now : Nat) :
    PrescriptionRow × Store :=
  let row : PrescriptionRow :=
    ⟨s.next_id, p.appointment_id, p.patient_id, p.doctor_id,
      p.medication, p.dosage, p.days, now⟩
  (row, ⟨s.next_id + 1, s.rows ++ [row]⟩)

/-- Primary keys already issued are below the autoincrement counter. -/
def Store.WF (s : Store) : Prop :=
  ∀ r ∈ s.rows, r.prescription_id < s.next_id

/-- Outcome of the HTTP POST inside `notify_service`. -/
inductive NotifyOutcome where
  | delivered
  | timeout
  | connectionError
  | errorStatus (code : Nat)
deriving Repr, DecidableEq

/-- What `client.post(...)` at src/app.py lines 81-85 does before the
`except`: timeouts and connection errors raise; a response — success or
not — does not (`raise_for_status` is never called). -/
def notify_attempt : NotifyOutcome → Except String Unit
  | .delivered => .ok ()
  | .timeout => .error "timeout"
  | .connectionError => .error "connection error"
  | .errorStatus _ => .ok ()

/-- `notify_service` (src/app.py lines 77-88): any exception is caught and
logged as a warning; nothing propagates to the caller. -/
def notify_service (outcome : NotifyOutcome) : Unit :=
  match notify_attempt outcome with
  | .ok _ => ()
  | .error _ => ()

/-- `create_prescription` (src/app.py lines 90-130): verify the appointment;
on failure the raised `HTTPException` propagates and nothing is written; on
success insert the row, fire the notification (outcome ignored) and return
the stored row.  Returns the response together with the resulting store. -/
def create_prescription (db : Store) (prescription : PrescriptionCreate)
    (svc : Int → UpstreamResponse) (now : Nat) (notif : NotifyOutcome) :
    Except HTTPError PrescriptionRow × Store :=
  match verify_appointment svc prescription.appointment_id
      prescription.patient_id prescription.doctor_id with
  | .error e => (.error e, db)
  | .ok _ =>
    let (row, db2) := db.insert prescription now
    let _ := notify_service notif
    (.ok row, db2)

/-- HTTP status of the creation response: the route is declared with
`status_code=201`; an `HTTPException` carries its own status. -/
def responseStatus : Except HTTPError PrescriptionRow → Nat
  | .ok _ => 201
  | .error e => e.status_code

/-- Python truthiness of an `Optional[int]`: `None` and `0` are falsy
(src/app.py lines 143 and 146 test `if patient_id:` / `if appointment_id:`). -/
def pyTruthy : Option Int → Bool
  | none => false
  | some v => v ≠ 0

/-- The filter chain of `get_prescriptions` (src/app.py lines 141-147):
each filter is applied only when the parameter is truthy. -/
def queryRows (db : Store) (patient_id appointment_id : Option Int) :
    List PrescriptionRow :=
  let q := db.rows
  let q := if pyTruthy patient_id
    then q.filter (fun r => some r.patient_id == patient_id) else q
  let q := if pyTruthy appointment_id
    then q.filter (fun r => some r.appointment_id == appointment_id) else q
  q

/-- `order_by(Prescription.issued_at.desc())`: later timestamps first. -/
def issuedGE (a b : PrescriptionRow) : Prop :=
  b.issued_at ≤ a.issued_at

instance : DecidableRel issuedGE := fun _ b => Nat.decLe b.issued_at _

instance : IsTotal PrescriptionRow issuedGE :=
  ⟨fun _ b => Nat.le_total b.issued_at _⟩

instance : IsTrans PrescriptionRow issuedGE :=
  ⟨fun _ _ _ hab hbc => Nat.le_trans hbc hab⟩

/-- The ordered result set before paging (src/app.py line 150), modelled as a
stable sort of the filtered rows by `issued_at` descending. -/
def sortedRows (db : Store) (patient_id appointment_id : Option Int) :
    List PrescriptionRow :=
  (queryRows db patient_id appointment_id).insertionSort issuedGE

/-- `get_prescriptions` (src/app.py lines 132-153) after parameter
validation: `.offset(skip).limit(limit).all()` on the ordered query. -/
def get_prescriptions (db : Store) (skip limit : Nat)
    (patient_id appointment_id : Option Int) : List PrescriptionRow :=
  ((sortedRows db patient_id appointment_id).drop skip).take limit

/-- The full `GET /v1/prescriptions` handler including FastAPI's query
validation: `skip: int = Query(0, ge=0)`, `limit: int = Query(100, ge=1,
le=100)` (src/app.py lines 134-135).  A parameter violating its bounds makes
FastAPI reject the request with 422 before the handler body runs. -/
def get_prescriptions_http (db : Store) (skip limit : Option Int)
    (patient_id appointment_id : Option Int) :
    Except Nat (List PrescriptionRow) :=
  let s := skip.getD 0
  let l := limit.getD 100
  if 0 ≤ s ∧ 1 ≤ l ∧ l ≤ 100 then
    .ok (get_prescriptions db s.toNat l.toNat patient_id appointment_id)
  else .error 422

/-- `get_prescription` (src/app.py lines 155-163): first row with the given
primary key, else 404. -/
def get_prescription (db : Store) (prescription_id : Nat) :
    Except HTTPError PrescriptionRow :=
  match db.rows.find? (fun r => r.prescription_id == prescription_id) with
  | some r => .ok r
  | none => .error ⟨404, "Prescription not found"⟩

/-! ## Helper lemmas -/

/-- Every record returned by a `GET /prescriptions` page comes from the
filtered query. -/
theorem mem_queryRows_of_mem_get_prescriptions {db : Store} {skip limit : Nat}
    {pid aid : Option Int} {r : PrescriptionRow}
    (h : r ∈ get_prescriptions db skip limit pid aid) :
    r ∈ queryRows db pid aid := by
  have h1 : r ∈ sortedRows db pid aid :=
    (List.drop_sublist _ _).subset ((List.take_sublist _ _).subset h)
  exact (List.perm_insertionSort issuedGE _).subset h1

/-- With a nonzero `patient_id` and no `appointment_id`, the query is a
filter of the table on that patient. -/
theorem queryRows_patient_ne_zero {db : Store} {v : Int} (hv : v ≠ 0) :
    queryRows db (some v) none
      = db.rows.filter (fun r => some r.patient_id == some v) := by
  simp [queryRows, pyTruthy, hv]

/-! ## Claims -/

/-- C1: For every creation request, the Appointment Verifier evaluates its
checks in a fixed order — appointment existence, then status exactly
COMPLETED, then patient_id match, then doctor_id match — and the first
failing check alone determines the reported error (the not-completed error
carries the observed status in its message via `notCompletedDetail`,
patient mismatch, doctor mismatch); it never reports multiple simultaneous
violations, and on success it returns the appointment data. -/
theorem verify_appointment_check_order
    (svc : Int → UpstreamResponse) (aid pid did : Int)
    (code : Nat) (a : AppointmentJson) :
    (∀ body, svc aid = .response 404 body →
      verify_appointment svc aid pid did
        = .error ⟨404, "Appointment not found"⟩) ∧
    (svc aid = .response code (some a) → code ≠ 404 →
      a.status ≠ some "COMPLETED" →
      verify_appointment svc aid pid did
        = .error ⟨400, notCompletedDetail a.status⟩) ∧
    (svc aid = .response code (some a) → code ≠ 404 →
      a.status = some "COMPLETED" → a.patient_id ≠ some pid →
      verify_appointment svc aid pid did
        = .error ⟨400, "Patient ID does not match appointment"⟩) ∧
    (svc aid = .response code (some a) → code ≠ 404 →
      a.status = some "COMPLETED" → a.patient_id = some pid →
      a.doctor_id ≠ some did →
      verify_appointment svc aid pid did
        = .error ⟨400, "Doctor ID does not match appointment"⟩) ∧
    (svc aid = .response code (some a) → code ≠ 404 →
      a.status = some "COMPLETED" → a.patient_id = some pid →
      a.doctor_id = some did →
      verify_appointment svc aid pid did = .ok a) := by
  refine ⟨fun body h => ?_, fun h h4 hs => ?_, fun h h4 hs hp => ?_,
    fun h h4 hs hp hd => ?_, fun h h4 hs hp hd => ?_⟩
  · simp [verify_appointment, h]
  · simp [verify_appointment, h, h4, hs]
  · simp [verify_appointment, h, h4, hs, hp]
  · simp [verify_appointment, h, h4, hs, hp, hd]
  · simp [verify_appointment, h, h4, hs, hp, hd]

/-- Witness for C1: a SCHEDULED appointment whose patient and doctor ids
also both mismatch is reported only as not-completed, with the observed
status in the message. -/
theorem verify_appointment_check_order_witness :
    verify_appointment
        (fun _ => .response 200 (some ⟨some "SCHEDULED", some 2, some 3⟩))
        1 5 7
      = .error ⟨400, notCompletedDetail (some "SCHEDULED")⟩ :=
  (verify_appointment_check_order
      (fun _ => .response 200 (some ⟨some "SCHEDULED", some 2, some 3⟩))
      1 5 7 200 ⟨some "SCHEDULED", some 2, some 3⟩).2.1
    rfl (by decide) (by decide)

/-- C2: When appointment verification fails, for any reason, nothing is
written: the store after the creation request equals the store before it,
and the verification error is returned unchanged. -/
theorem create_prescription_no_write_on_verify_failure
    (db : Store) (req : PrescriptionCreate) (svc : Int → UpstreamResponse)
    (now : Nat) (notif : NotifyOutcome) (e : HTTPError)
    (h : verify_appointment svc req.appointment_id req.patient_id
        req.doctor_id = .error e) :
    (create_prescription db req svc now notif).2 = db ∧
    (create_prescription db req svc now notif).1 = .error e := by
  simp [create_prescription, h]

/-- Witness for C2: a request against a SCHEDULED appointment leaves a
one-row store exactly as it was. -/
theorem create_prescription_no_write_on_verify_failure_witness :
    (create_prescription
        (⟨2, [⟨1, 1, 1, 1, "m", "d", 5, 0⟩]⟩ : Store)
        ⟨9, 1, 1, "m", "d", 5⟩
        (fun _ => .response 200 (some ⟨some "SCHEDULED", some 1, some 1⟩))
        3 .delivered).2
      = (⟨2, [⟨1, 1, 1, 1, "m", "d", 5, 0⟩]⟩ : Store) :=
  (create_prescription_no_write_on_verify_failure
      ⟨2, [⟨1, 1, 1, 1, "m", "d", 5, 0⟩]⟩
      ⟨9, 1, 1, "m", "d", 5⟩
      (fun _ => .response 200 (some ⟨some "SCHEDULED", some 1, some 1⟩))
      3 .delivered
      ⟨400, notCompletedDetail (some "SCHEDULED")⟩ rfl).1

/-- C3 (divergence): when the appointment service answers with an error
status (here 500) whose body parses as JSON, `verify_appointment` does not
return 503: `raise_for_status` is never called, so the response falls
through to the status check and yields 400 with
"... Current status: None". -/
theorem verify_appointment_error_status_divergence :
    verify_appointment
        (fun _ => .response 500 (some ⟨none, none, none⟩)) 1 1 1
      = .error ⟨400, notCompletedDetail none⟩ ∧
    notCompletedDetail none
      = "Appointment must be COMPLETED to create prescription. Current status: None" := by
  exact ⟨rfl, rfl⟩

/-- C4: Once verification succeeds, the creation response does not depend on
the notification outcome: for every outcome the handler returns 201 with the
row just stored, and the resulting state equals the one produced with a
delivered notification. -/
theorem create_prescription_notification_failure_nonfatal
    (db : Store) (req : PrescriptionCreate) (svc : Int → UpstreamResponse)
    (now : Nat) (a : AppointmentJson)
    (h : verify_appointment svc req.appointment_id req.patient_id
        req.doctor_id = .ok a) :
    ∀ notif : NotifyOutcome,
      responseStatus (create_prescription db req svc now notif).1 = 201 ∧
      (create_prescription db req svc now notif).1
        = .ok (db.insert req now).1 ∧
      create_prescription db req svc now notif
        = create_prescription db req svc now .delivered := by
  intro notif
  refine ⟨?_, ?_, ?_⟩ <;> simp [create_prescription, h, responseStatus]

/-- Witness for C4: with a timed-out notification the creation request on a
valid COMPLETED appointment still reports 201. -/
theorem create_prescription_notification_failure_nonfatal_witness :
    responseStatus
        (create_prescription (⟨1, []⟩ : Store) ⟨1, 2, 3, "m", "d", 5⟩
          (fun _ => .response 200 (some ⟨some "COMPLETED", some 2, some 3⟩))
          8 .timeout).1 = 201 :=
  (create_prescription_notification_failure_nonfatal
      ⟨1, []⟩ ⟨1, 2, 3, "m", "d", 5⟩
      (fun _ => .response 200 (some ⟨some "COMPLETED", some 2, some 3⟩))
      8 ⟨some "COMPLETED", some 2, some 3⟩ rfl .timeout).1

/-- C5: On a well-formed store, a successful creation returns a row whose
submitted fields equal the request's, whose `issued_at` is the server clock
at insert time, and an immediately following GET by the returned id yields
exactly that row. -/
theorem create_then_get_roundtrip
    (db : Store) (req : PrescriptionCreate) (svc : Int → UpstreamResponse)
    (now : Nat) (notif : NotifyOutcome) (a : AppointmentJson)
    (hwf : db.WF)
    (h : verify_appointment svc req.appointment_id req.patient_id
        req.doctor_id = .ok a) :
    ∃ row : PrescriptionRow,
      (create_prescription db req svc now notif).1 = .ok row ∧
      get_prescription (create_prescription db req svc now notif).2
          row.prescription_id = .ok row ∧
      row.appointment_id = req.appointment_id ∧
      row.patient_id = req.patient_id ∧
      row.doctor_id = req.doctor_id ∧
      row.medication = req.medication ∧
      row.dosage = req.dosage ∧
      row.days = req.days ∧
      row.issued_at = now := by
  refine ⟨⟨db.next_id, req.appointment_id, req.patient_id, req.doctor_id,
      req.medication, req.dosage, req.days, now⟩,
      ?_, ?_, rfl, rfl, rfl, rfl, rfl, rfl, rfl⟩
  · simp [create_prescription, h, Store.insert]
  · have hmain : (create_prescription db req svc now notif).2
        = ⟨db.next_id + 1,
            db.rows ++ [⟨db.next_id, req.appointment_id, req.patient_id,
              req.doctor_id, req.medication, req.dosage, req.days, now⟩]⟩ := by
      simp [create_prescription, h, Store.insert]
    rw [hmain]
    have hnone : db.rows.find?
        (fun r => r.prescription_id == db.next_id) = none := by
      rw [List.find?_eq_none]
      intro x hx
      simp only [beq_iff_eq]
      exact Nat.ne_of_lt (hwf x hx)
    simp [get_prescription, List.find?_append, hnone]

/-- Witness for C5: creating against an empty store and reading the id back. -/
theorem create_then_get_roundtrip_witness :
    ∃ row : PrescriptionRow,
      (create_prescription (⟨1, []⟩ : Store) ⟨1, 2, 3, "m", "d", 5⟩
          (fun _ => .response 200 (some ⟨some "COMPLETED", some 2, some 3⟩))
          6 .delivered).1 = .ok row ∧
      get_prescription
          (create_prescription (⟨1, []⟩ : Store) ⟨1, 2, 3, "m", "d", 5⟩
            (fun _ => .response 200 (some ⟨some "COMPLETED", some 2, some 3⟩))
            6 .delivered).2 row.prescription_id = .ok row ∧
      row.appointment_id = (1 : Int) ∧
      row.patient_id = (2 : Int) ∧
      row.doctor_id = (3 : Int) ∧
      row.medication = "m" ∧
      row.dosage = "d" ∧
      row.days = (5 : Int) ∧
      row.issued_at = 6 :=
  create_then_get_roundtrip ⟨1, []⟩ ⟨1, 2, 3, "m", "d", 5⟩
    (fun _ => .response 200 (some ⟨some "COMPLETED", some 2, some 3⟩))
    6 .delivered ⟨some "COMPLETED", some 2, some 3⟩
    (by intro r hr; simp at hr) rfl

/-- C6 (counterexample): a store holding exactly three records for
patient 0 and one later record for patient 5; the request
`patient_id=0&limit=1` returns the patient-5 record — not one of the three
matches — because the handler treats the supplied 0 as absent. -/
theorem get_prescriptions_limit_one_zero_counterexample :
    ((⟨5, [⟨1, 10, 0, 1, "m", "d", 1, 1⟩, ⟨2, 11, 0, 1, "m", "d", 1, 2⟩,
        ⟨3, 12, 0, 1, "m", "d", 1, 3⟩,
        ⟨4, 13, 5, 1, "m", "d", 1, 10⟩]⟩ : Store).rows.filter
        (fun r => r.patient_id == (0 : Int))).length = 3 ∧
    get_prescriptions (⟨5, [⟨1, 10, 0, 1, "m", "d", 1, 1⟩,
        ⟨2, 11, 0, 1, "m", "d", 1, 2⟩, ⟨3, 12, 0, 1, "m", "d", 1, 3⟩,
        ⟨4, 13, 5, 1, "m", "d", 1, 10⟩]⟩ : Store) 0 1 (some 0) none
      = [⟨4, 13, 5, 1, "m", "d", 1, 10⟩] ∧
    (⟨4, 13, 5, 1, "m", "d", 1, 10⟩ : PrescriptionRow).patient_id ≠ 0 := by
  decide

/-- C6 (amended): every returned page is ordered by `issued_at` descending,
and for a nonzero `patient_id` with exactly three matching records,
`limit=1` returns exactly one record, it matches the patient, and its
`issued_at` is maximal among the matches. -/
theorem get_prescriptions_sorted_limit_one
    (db : Store) (skip limit : Nat) (pid aid : Option Int) (v : Int) :
    List.Sorted issuedGE (get_prescriptions db skip limit pid aid) ∧
    (v ≠ 0 → (queryRows db (some v) none).length = 3 →
      ∃ r, get_prescriptions db 0 1 (some v) none = [r] ∧
        r.patient_id = v ∧
        ∀ x ∈ queryRows db (some v) none, x.issued_at ≤ r.issued_at) := by
  constructor
  · unfold get_prescriptions
    exact List.Pairwise.sublist
      ((List.take_sublist _ _).trans (List.drop_sublist _ _))
      (List.sorted_insertionSort issuedGE _)
  · intro hv hlen
    have hperm : ((queryRows db (some v) none).insertionSort issuedGE).Perm
        (queryRows db (some v) none) := List.perm_insertionSort issuedGE _
    have hslen : ((queryRows db (some v) none).insertionSort issuedGE).length
        = 3 := by rw [hperm.length_eq, hlen]
    obtain ⟨r, rest, hcons⟩ : ∃ r rest,
        (queryRows db (some v) none).insertionSort issuedGE = r :: rest := by
      cases hS : (queryRows db (some v) none).insertionSort issuedGE with
      | nil => rw [hS] at hslen; simp at hslen
      | cons r rest => exact ⟨r, rest, rfl⟩
    refine ⟨r, ?_, ?_, ?_⟩
    · show ((sortedRows db (some v) none).drop 0).take 1 = [r]
      simp [sortedRows, hcons]
    · have hrQ : r ∈ queryRows db (some v) none :=
        hperm.subset (by rw [hcons]; exact List.mem_cons_self _ _)
      rw [queryRows_patient_ne_zero hv] at hrQ
      simpa using (List.mem_filter.mp hrQ).2
    · intro x hx
      have hxS : x ∈ (queryRows db (some v) none).insertionSort issuedGE :=
        hperm.mem_iff.mpr hx
      rw [hcons] at hxS
      rcases List.mem_cons.mp hxS with h1 | h1
      · exact le_of_eq (by rw [h1])
      · have hsorted : List.Sorted issuedGE (r :: rest) := by
          rw [← hcons]; exact List.sorted_insertionSort issuedGE _
        exact (List.pairwise_cons.mp hsorted).1 x h1

/-- Witness for C6 (amended): a store of three patient-7 records; the
`limit=1` page is the record with the greatest `issued_at`. -/
theorem get_prescriptions_sorted_limit_one_witness :
    ∃ r, get_prescriptions (⟨4, [⟨1, 10, 7, 1, "am", "250mg", 7, 1⟩,
        ⟨2, 11, 7, 1, "ib", "200mg", 5, 3⟩,
        ⟨3, 12, 7, 1, "ce", "10mg", 10, 2⟩]⟩ : Store) 0 1 (some 7) none
        = [r] ∧
      r.patient_id = 7 ∧
      ∀ x ∈ queryRows (⟨4, [⟨1, 10, 7, 1, "am", "250mg", 7, 1⟩,
          ⟨2, 11, 7, 1, "ib", "200mg", 5, 3⟩,
          ⟨3, 12, 7, 1, "ce", "10mg", 10, 2⟩]⟩ : Store) (some 7) none,
        x.issued_at ≤ r.issued_at :=
  (get_prescriptions_sorted_limit_one
      ⟨4, [⟨1, 10, 7, 1, "am", "250mg", 7, 1⟩,
        ⟨2, 11, 7, 1, "ib", "200mg", 5, 3⟩,
        ⟨3, 12, 7, 1, "ce", "10mg", 10, 2⟩]⟩
      0 1 none none 7).2 (by decide) (by decide)

/-- C7 (counterexample): with a single stored record for patient 1, the
request with `patient_id=0` supplied returns that record, so not every
returned record has the supplied patient id. -/
theorem get_prescriptions_filter_zero_counterexample :
    ¬ ∀ r ∈ get_prescriptions (⟨2, [⟨1, 10, 1, 1, "m", "d", 1, 0⟩]⟩ : Store)
        0 100 (some 0) none, r.patient_id = 0 := by
  decide

/-- C7 (amended): a supplied nonzero `patient_id` restricts every returned
record to that patient, a supplied nonzero `appointment_id` to that
appointment, both together are ANDed, and with neither supplied the query
is the whole table. -/
theorem get_prescriptions_filters_anded
    (db : Store) (skip limit : Nat) (p q : Int) (hp : p ≠ 0) (hq : q ≠ 0) :
    (∀ r ∈ get_prescriptions db skip limit (some p) none,
        r.patient_id = p) ∧
    (∀ r ∈ get_prescriptions db skip limit none (some q),
        r.appointment_id = q) ∧
    (∀ r ∈ get_prescriptions db skip limit (some p) (some q),
        r.patient_id = p ∧ r.appointment_id = q) ∧
    queryRows db none none = db.rows := by
  have hQq : queryRows db none (some q)
      = db.rows.filter (fun r => some r.appointment_id == some q) := by
    simp [queryRows, pyTruthy, hq]
  have hQpq : queryRows db (some p) (some q)
      = (db.rows.filter (fun r => some r.patient_id == some p)).filter
          (fun r => some r.appointment_id == some q) := by
    simp [queryRows, pyTruthy, hp, hq]
  refine ⟨?_, ?_, ?_, by simp [queryRows, pyTruthy]⟩
  · intro r hr
    have hm := mem_queryRows_of_mem_get_prescriptions hr
    rw [queryRows_patient_ne_zero hp] at hm
    simpa using (List.mem_filter.mp hm).2
  · intro r hr
    have hm := mem_queryRows_of_mem_get_prescriptions hr
    rw [hQq] at hm
    simpa using (List.mem_filter.mp hm).2
  · intro r hr
    have hm := mem_queryRows_of_mem_get_prescriptions hr
    rw [hQpq] at hm
    have h2 := List.mem_filter.mp hm
    have h3 := List.mem_filter.mp h2.1
    exact ⟨by simpa using h3.2, by simpa using h2.2⟩

/-- Witness for C7 (amended): the nonzero filter 7 admits the stored
patient-7 record, whose patient id the theorem then pins to 7. -/
theorem get_prescriptions_filters_anded_witness :
    (⟨1, 10, 7, 2, "m", "d", 1, 1⟩ : PrescriptionRow).patient_id = 7 :=
  (get_prescriptions_filters_anded
      ⟨3, [⟨1, 10, 7, 2, "m", "d", 1, 1⟩, ⟨2, 11, 8, 2, "m", "d", 1, 2⟩]⟩
      0 100 7 11 (by decide) (by decide)).1
    ⟨1, 10, 7, 2, "m", "d", 1, 1⟩ (by decide)

/-- C8: Omitted pagination parameters default to `skip=0`, `limit=100`; a
request is accepted exactly when `skip ≥ 0` and `1 ≤ limit ≤ 100` (otherwise
it is rejected with 422); an accepted page holds at most `limit` records and
equals the corresponding longer page with its first `skip` entries removed. -/
theorem get_prescriptions_pagination
    (db : Store) (skip limit patient_id appointment_id : Option Int) :
    get_prescriptions_http db none none patient_id appointment_id
      = .ok (get_prescriptions db 0 100 patient_id appointment_id) ∧
    ((∃ l, get_prescriptions_http db skip limit patient_id appointment_id
        = .ok l) ↔
      0 ≤ skip.getD 0 ∧ 1 ≤ limit.getD 100 ∧ limit.getD 100 ≤ 100) ∧
    (∀ l, get_prescriptions_http db skip limit patient_id appointment_id
        = .ok l →
      l.length ≤ (limit.getD 100).toNat ∧
      l = (get_prescriptions db 0
            ((skip.getD 0).toNat + (limit.getD 100).toNat)
            patient_id appointment_id).drop (skip.getD 0).toNat) := by
  refine ⟨by simp [get_prescriptions_http], ?_, ?_⟩
  · by_cases hcond : 0 ≤ skip.getD 0 ∧ 1 ≤ limit.getD 100
        ∧ limit.getD 100 ≤ 100
    · simp [get_prescriptions_http, hcond]
    · simp [get_prescriptions_http, hcond]
  · intro l hl
    by_cases hcond : 0 ≤ skip.getD 0 ∧ 1 ≤ limit.getD 100
        ∧ limit.getD 100 ≤ 100
    · have hl2 : get_prescriptions db (skip.getD 0).toNat
          (limit.getD 100).toNat patient_id appointment_id = l := by
        simpa [get_prescriptions_http, hcond] using hl
      constructor
      · rw [← hl2]
        exact List.length_take_le _ _
      · rw [← hl2]
        simp [get_prescriptions, List.drop_take, Nat.add_sub_cancel_left]
    · rw [show get_prescriptions_http db skip limit patient_id appointment_id
          = .error 422 from by simp [get_prescriptions_http, hcond]] at hl
      exact absurd hl (by simp)

/-- Witness for C8: `skip=2`, `limit=1` is in range, so the request is
accepted. -/
theorem get_prescriptions_pagination_witness :
    ∃ l, get_prescriptions_http (⟨0, []⟩ : Store) (some 2) (some 1)
        none none = .ok l :=
  (get_prescriptions_pagination ⟨0, []⟩ (some 2) (some 1)
      none none).2.1.mpr (by decide)

/-- C9 (counterexample): a creation request with empty `medication` and
`dosage` against a matching COMPLETED appointment is accepted — the
response is 201 and the row is persisted with the empty strings. -/
theorem create_prescription_empty_fields_accepted :
    responseStatus (create_prescription (⟨1, []⟩ : Store)
        ⟨1, 2, 3, "", "", 5⟩
        (fun _ => .response 200 (some ⟨some "COMPLETED", some 2, some 3⟩))
        4 .delivered).1 = 201 ∧
    (create_prescription (⟨1, []⟩ : Store) ⟨1, 2, 3, "", "", 5⟩
        (fun _ => .response 200 (some ⟨some "COMPLETED", some 2, some 3⟩))
        4 .delivered).2.rows
      = [⟨1, 1, 2, 3, "", "", 5, 4⟩] := by
  exact ⟨rfl, rfl⟩

/-- C9 (amended): `medication` and `dosage` are required text fields but may
be empty; whenever verification succeeds the creation is accepted and the
stored row carries the submitted `medication` and `dosage` verbatim. -/
theorem create_prescription_fields_stored_verbatim
    (db : Store) (req : PrescriptionCreate) (svc : Int → UpstreamResponse)
    (now : Nat) (notif : NotifyOutcome) (a : AppointmentJson)
    (h : verify_appointment svc req.appointment_id req.patient_id
        req.doctor_id = .ok a) :
    ∃ row : PrescriptionRow,
      (create_prescription db req svc now notif).1 = .ok row ∧
      row.medication = req.medication ∧ row.dosage = req.dosage := by
  refine ⟨⟨db.next_id, req.appointment_id, req.patient_id, req.doctor_id,
      req.medication, req.dosage, req.days, now⟩, ?_, rfl, rfl⟩
  simp [create_prescription, h, Store.insert]

/-- Witness for C9 (amended): applied to a request whose medication and
dosage are both the empty string. -/
theorem create_prescription_fields_stored_verbatim_witness :
    ∃ row : PrescriptionRow,
      (create_prescription (⟨0, []⟩ : Store) ⟨1, 2, 3, "", "", 7⟩
          (fun _ => .response 200 (some ⟨some "COMPLETED", some 2, some 3⟩))
          9 .timeout).1 = .ok row ∧
      row.medication = "" ∧ row.dosage = "" :=
  create_prescription_fields_stored_verbatim ⟨0, []⟩ ⟨1, 2, 3, "", "", 7⟩
    (fun _ => .response 200 (some ⟨some "COMPLETED", some 2, some 3⟩))
    9 .timeout ⟨some "COMPLETED", some 2, some 3⟩ rfl

/-- C10: a supplied filter value of 0 is falsy in Python, so the handler
skips that filter entirely: the query behaves exactly as if the parameter
were absent, for the patient filter and the appointment filter alike. -/
theorem get_prescriptions_zero_filter_ignored
    (db : Store) (skip limit : Nat) (pid aid : Option Int) :
    get_prescriptions db skip limit (some 0) aid
      = get_prescriptions db skip limit none aid ∧
    get_prescriptions db skip limit pid (some 0)
      = get_prescriptions db skip limit pid none := by
  constructor <;>
    simp [get_prescriptions, sortedRows, queryRows, pyTruthy]

end PrescriptionService
